import Mathlib

/-!
Shallow embedding of `src/src/router/Router.ts` (class `Router`): the bounded
route stack and the transition-coordination (voting) protocol, together with
the operations `push`, `pop`, `set`, `registerConfirm` and the per-handler
`confirm` / `cancel` capabilities handed out during a voting round.

Modelling conventions:
* JavaScript route values are `Option α`: `none` is `undefined` (the effect
  channel's initial value, and the result of popping an empty stack); `some r`
  is an actual route.  Route comparison with `===` becomes `DecidableEq α`.
* The route stack is kept in JS array order: index 0 is the front (oldest);
  `Array.push` appends at the end, `Array.pop` removes the last element,
  `Array.shift` removes the first.
* Handlers are identified by an abstract type `H` with decidable equality
  (reference identity in the source).
* Promise results are reified: an operation returns its post-state together
  with an `OpOutcome` (`ok v` resolved, `error e` rejected, `pending`
  suspended on a voting round); a vote call returns the post-state together
  with a `VoteRes` describing how it settled, or failed to settle, the round.
* The inner `complete` function of `updateRoute` is declared with a plain
  `function` and invoked bare by the `confirm` / `cancel` arrows, so its
  `this` is never the Router: under the strict-mode ES-module emit the first
  read of `this.currentTransition` throws a TypeError, and under a sloppy
  emit `this` is the global object, whose `currentTransition` is undefined,
  so the guard returns at once.  Under both readings no vote call ever
  mutates router state or settles the round's promise.  The embedding keeps
  the source's branch structure over the router's own `currentTransition`
  only to distinguish the two observables - the silent no-op at an idle
  router (`ignored`) and the dead-end at a pending round (`faulted`) - and in
  neither branch does a vote change any state.
-/

/-- Error values surfaced to callers of the router operations: the guard at
the top of `updateRoute`, and the rejection the cancellation branch of
`complete` would build (unreachable in the source, see `cancelVote`). -/
inductive RtErr where
  | transitionInProgress
  | cancelled (reason : String)
  deriving DecidableEq

/-- The default rejection reason the (unreachable) cancel body of `complete`
would attach when a handler cancels without one. -/
def cancelledDefaultMsg : String :=
  "Route transition was cancelled"

/-- The reason a handler supplies in the cancellation witness scenario. -/
def blockedMsg : String :=
  "blocked"

/-- Result of one router operation (`push` / `pop` / `set`): the promise
either resolves with a (possibly undefined) value, stays pending on a voting
round, or rejects with an error. -/
inductive OpOutcome (α : Type) where
  | ok (v : Option α)
  | pending
  | error (e : RtErr)
  deriving DecidableEq

/-- What a single `confirm` / `cancel` call achieves (the `complete` function
in the source).  `ignored`: there was no pending transition and the call had
nothing to do.  `faulted`: the call arrived at a pending round but went
nowhere - `complete`'s broken `this` binding throws a TypeError in strict
mode or early-returns against the global object otherwise, and even with a
router-bound `this` the confirm branch would fault on the nonexistent array
method `indexof` - so the state is untouched and the round stays pending.
`rejected e`: the settlement the cancel body would produce, rejecting the
pending operation's promise with `e`; no reachable call produces it. -/
inductive VoteRes where
  | ignored
  | faulted
  | rejected (e : RtErr)
  deriving DecidableEq

/-- Which `op` closure a transition carries: `update` (used by `pop` and
`set`) just fires the route; `pushEff` is the stack-mutating closure built in
`push`. -/
inductive OpKind where
  | update
  | pushEff
  deriving DecidableEq

/-- The in-flight transition (`currentTransition` in the source): the handler
array it was started with, plus the proposed route and the `op` closure the
round would run on commit.  In the source, `outstanding` is the very array
object that `ConfirmTransitions` points at; the only write through that alias
would be the `splice` in the confirm branch of `complete`, which is
unreachable - `complete`'s broken `this` binding stops every vote call, and
even a router-bound `this` would fault on the `indexof` lookup right before
the splice - so an immutable snapshot is a faithful model of the array. -/
structure PendingT (α H : Type) where
  outstanding : List H
  route : Option α
  op : OpKind
  deriving DecidableEq

/-- The state of one `Router` instance together with its embedded effect
channel: the channel's last fired value (`current`), the log of notifications
fired so far (`fireLog`), the bounded history stack, the registered confirm
handlers, and the at-most-one pending transition. -/
structure RouterS (α H : Type) where
  current : Option α
  fireLog : List (Option α)
  routeStack : List (Option α)
  stackSize : Nat
  confirmTransitions : List H
  currentTransition : Option (PendingT α H)
  deriving DecidableEq

variable {α H : Type} [DecidableEq α] [DecidableEq H]

/-- Modelled from the spec: the `EffectHandler` collaborator is absent from
the source tree.  Its contract ("fire(route): invoke all current subscribers
with the new route, synchronously; get(): return the last fired value or an
initial default") is embedded as: `fire r` records `r` as the last value,
read back by `get`, and appends one notification to the log. -/
def fire (r : Option α) (s : RouterS α H) : RouterS α H :=
  { s with current := r, fireLog := s.fireLog ++ [r] }

/-- Modelled from the spec: the router's `get` (the re-exported
`effect.get`) returns the last fired value, or the undefined initial
default - `none` on a freshly constructed router. -/
def RouterS.get (s : RouterS α H) : Option α :=
  s.current

/-- The private `update` method: its invalid-route guard `!route === null`
compares a boolean against `null` and is therefore always false (no warning
ever fires, with no other effect either way), after which it fires the route
on the effect channel. -/
def update (r : Option α) (s : RouterS α H) : RouterS α H :=
  fire r s

/-- The eviction loop in `push`'s `op` closure:
`while (this.routeStack.length >= this.stackSize) this.routeStack.shift()`.
Structural recursion on the list; for `stackSize = 0` the JS loop never exits
once entered (shifting an empty array leaves its length 0), so the model is
meaningful only for `1 ≤ stackSize` (the constructor default is 32). -/
def shiftWhileFull (n : Nat) : List (Option α) → List (Option α)
  | [] => []
  | r :: rest => if n ≤ (r :: rest).length then shiftWhileFull n rest else r :: rest

/-- Run a committed transition's `op` closure.  For `push` this is: evict
while full, append the current (pre-change) route, then `update` to the new
route; for `pop` and `set` the closure is `this.update` itself. -/
def applyEffect (k : OpKind) (r : Option α) (s : RouterS α H) : RouterS α H :=
  match k with
  | .update => update r s
  | .pushEff =>
      let stk := shiftWhileFull s.stackSize s.routeStack
      update r { s with routeStack := stk ++ [s.get] }

/-- `updateRoute(route, op)`: throws if a transition is already in progress;
short-circuits, running `op` synchronously and resolving, if no confirm
handler is registered; otherwise marks the transition started -
`currentTransition` is assigned the registered-handler array - and suspends
on the voting round. -/
def updateRoute (r : Option α) (k : OpKind) (s : RouterS α H) :
    RouterS α H × OpOutcome α :=
  if s.currentTransition.isSome then
    (s, .error .transitionInProgress)
  else if s.confirmTransitions.isEmpty then
    (applyEffect k r s, .ok none)
  else
    ({ s with currentTransition := some ⟨s.confirmTransitions, r, k⟩ }, .pending)

/-- `pop()`: removes the most recent stack entry - `Array.pop`, which yields
undefined on an empty array and removes the last element otherwise - then
runs `updateRoute` on the popped value with the plain `update` closure, and
resolves with the popped value. -/
def pop (s : RouterS α H) : RouterS α H × OpOutcome α :=
  let prev := s.routeStack.getLast?.join
  match updateRoute prev .update { s with routeStack := s.routeStack.dropLast } with
  | (s2, .ok _) => (s2, .ok prev)
  | (s2, o) => (s2, o)

/-- The `set(route)` operation (named `setRoute` here because a bare `set`
collides with the monadic `set` that Mathlib exports): clears the stack up
front; if the route being set is what is already displayed, it just returns;
otherwise it performs the transition through `updateRoute` with the `update`
closure. -/
def setRoute (r : α) (s : RouterS α H) : RouterS α H × OpOutcome α :=
  let s1 : RouterS α H := { s with routeStack := [] }
  if s1.get = some r then (s1, .ok none)
  else updateRoute (some r) .update s1

/-- `push(route)`: returns at once if the route has not changed; otherwise it
performs the transition through `updateRoute` with the stack-mutating
`pushEff` closure. -/
def push (r : α) (s : RouterS α H) : RouterS α H × OpOutcome α :=
  if s.get = some r then (s, .ok none)
  else updateRoute (some r) .pushEff s

/-- The `confirm` capability handed to handler `h` (the confirm branch of
`complete`).  With no transition pending the call has nothing to do.  At a
pending round it goes nowhere: `complete`'s `this` is never the Router
(TypeError in strict mode, early return against the global object otherwise),
and even with a router-bound `this` the lookup
`this.currentTransition.indexof(handler)` would raise a TypeError - arrays
have `indexOf`, not `indexof` - before the splice / commit code below it.
Under every reading the state is unchanged and the round stays pending. -/
def confirmVote (_h : H) (s : RouterS α H) : RouterS α H × VoteRes :=
  match s.currentTransition with
  | none => (s, .ignored)
  | some _ => (s, .faulted)

/-- The `cancel` capability (the handler-less branch of `complete`).  With no
transition pending the call has nothing to do.  At a pending round it goes
nowhere: `complete`'s `this` is never the Router - the strict-mode emit
throws a TypeError at the first read of `this.currentTransition`, a sloppy
emit reads the global object and returns at the guard - so the body that
would clear `currentTransition` and reject the promise with the
handler-supplied reason (or `cancelledDefaultMsg`) is unreachable: the state
is untouched, the round stays pending, and the pending operation's promise is
never rejected. -/
def cancelVote (_reason : Option String) (s : RouterS α H) : RouterS α H × VoteRes :=
  match s.currentTransition with
  | none => (s, .ignored)
  | some _ => (s, .faulted)

/-- `registerConfirm(effect)`: rebinds the registration list to a fresh array
extended with the handler (`concat`). -/
def registerConfirm (h : H) (s : RouterS α H) : RouterS α H :=
  { s with confirmTransitions := s.confirmTransitions ++ [h] }

/-- The unregistration closure returned by `registerConfirm`: rebinds the
registration list to a fresh array without the handler (`filter`). -/
def unregisterConfirm (h : H) (s : RouterS α H) : RouterS α H :=
  { s with confirmTransitions := s.confirmTransitions.filter (· ≠ h) }

/-- A freshly constructed router: empty stack, no handlers, no pending
transition, effect channel at its undefined initial value.  The source's
default `stackSize` is 32. -/
def mkRouter (n : Nat) : RouterS α H :=
  { current := none, fireLog := [], routeStack := [], stackSize := n,
    confirmTransitions := [], currentTransition := none }

/-- Fold a sequence of `push` calls over a router state. -/
def pushSeq (rs : List α) (s : RouterS α H) : RouterS α H :=
  rs.foldl (fun t r => (push r t).1) s

/-- Fold a sequence of `confirm` calls over a router state. -/
def confirmAll (hs : List H) (s : RouterS α H) : RouterS α H :=
  hs.foldl (fun t h => (confirmVote h t).1) s

/-- A sample state deep in the protocol: a fresh router that committed
`push 1` (so route 1 is displayed), then gained confirm handler 7, then
suspended a `push 2` voting round. -/
def sampleVoting : RouterS Nat Nat :=
  (push 2 (registerConfirm 7 (push 1 (mkRouter 32)).1)).1

/-- A `confirm` call never changes the state: with no pending transition it
returns at once, and with one it faults on the `indexof` lookup before any
mutation. -/
lemma confirmVote_state (h : H) (s : RouterS α H) : (confirmVote h s).1 = s := by
  cases hc : s.currentTransition <;> simp [confirmVote, hc]

/-- Any sequence of `confirm` calls leaves the state unchanged. -/
lemma confirmAll_state (hs : List H) (s : RouterS α H) : confirmAll hs s = s := by
  induction hs generalizing s with
  | nil => rfl
  | cons a l ih =>
      have h1 : confirmAll (a :: l) s = confirmAll l (confirmVote a s).1 := rfl
      rw [h1, confirmVote_state, ih]

/-- A `cancel` call never touches the route stack. -/
lemma cancelVote_routeStack (reason : Option String) (s : RouterS α H) :
    (cancelVote reason s).1.routeStack = s.routeStack := by
  cases hc : s.currentTransition <;> simp [cancelVote, hc]

/-- With a positive bound, the eviction loop leaves at most `n - 1` entries. -/
lemma shiftWhileFull_length_le (n : Nat) (h : 1 ≤ n) (l : List (Option α)) :
    (shiftWhileFull n l).length ≤ n - 1 := by
  induction l with
  | nil => simp [shiftWhileFull]
  | cons r rest ih =>
      rw [shiftWhileFull]
      by_cases hc : n ≤ (r :: rest).length
      · rw [if_pos hc]; exact ih
      · rw [if_neg hc]; simp at hc ⊢; omega

/-- With a positive bound, the eviction loop drops exactly the oldest entries
from the front: it computes `List.drop` of the prefix that would make a
subsequent append exceed the bound. -/
lemma shiftWhileFull_eq_drop (n : Nat) (h : 1 ≤ n) (l : List (Option α)) :
    shiftWhileFull n l = l.drop (l.length + 1 - n) := by
  induction l with
  | nil => simp [shiftWhileFull]
  | cons r rest ih =>
      rw [shiftWhileFull]
      by_cases hc : n ≤ (r :: rest).length
      · rw [if_pos hc, ih]
        simp only [List.length_cons] at hc ⊢
        have h2 : rest.length + 1 + 1 - n = (rest.length + 1 - n) + 1 := by omega
        rw [h2, List.drop_succ_cons]
      · rw [if_neg hc]
        simp only [List.length_cons] at hc ⊢
        have h2 : rest.length + 1 + 1 - n = 0 := by omega
        rw [h2, List.drop_zero]

/-- Committed effects do not change the stack bound. -/
lemma applyEffect_stackSize (k : OpKind) (r : Option α) (s : RouterS α H) :
    (applyEffect k r s).stackSize = s.stackSize := by
  cases k <;> simp [applyEffect, update, fire]

/-- Committed effects keep the stack within a positive bound. -/
lemma applyEffect_length_le (k : OpKind) (r : Option α) (s : RouterS α H)
    (h1 : 1 ≤ s.stackSize) (h0 : s.routeStack.length ≤ s.stackSize) :
    (applyEffect k r s).routeStack.length ≤ s.stackSize := by
  cases k with
  | update => simpa [applyEffect, update, fire] using h0
  | pushEff =>
      have h2 := shiftWhileFull_length_le s.stackSize h1 s.routeStack
      simp only [applyEffect, update, fire, List.length_append, List.length_cons,
        List.length_nil]
      omega

/-- `push` does not change the stack bound. -/
lemma push_stackSize (r : α) (s : RouterS α H) : (push r s).1.stackSize = s.stackSize := by
  rw [push]
  by_cases hg : s.get = some r
  · rw [if_pos hg]
  · rw [if_neg hg, updateRoute]
    by_cases h1 : s.currentTransition.isSome
    · rw [if_pos h1]
    · rw [if_neg h1]
      by_cases h2 : s.confirmTransitions.isEmpty
      · rw [if_pos h2]; exact applyEffect_stackSize _ _ _
      · rw [if_neg h2]

/-- One `push` keeps the stack within a positive bound. -/
lemma push_length (r : α) (s : RouterS α H) (h1 : 1 ≤ s.stackSize)
    (h0 : s.routeStack.length ≤ s.stackSize) :
    (push r s).1.routeStack.length ≤ s.stackSize := by
  rw [push]
  by_cases hg : s.get = some r
  · rw [if_pos hg]; exact h0
  · rw [if_neg hg, updateRoute]
    by_cases hc : s.currentTransition.isSome
    · rw [if_pos hc]; exact h0
    · rw [if_neg hc]
      by_cases he : s.confirmTransitions.isEmpty
      · rw [if_pos he]; exact applyEffect_length_le _ _ _ h1 h0
      · rw [if_neg he]; exact h0

/-- Unfolding one step of `pushSeq`. -/
lemma pushSeq_cons (r : α) (rs : List α) (s : RouterS α H) :
    pushSeq (r :: rs) s = pushSeq rs (push r s).1 := rfl

/-- Any sequence of `push` calls preserves the stack bound and keeps the
stack within it. -/
lemma pushSeq_inv (rs : List α) (s : RouterS α H) (h1 : 1 ≤ s.stackSize)
    (h0 : s.routeStack.length ≤ s.stackSize) :
    (pushSeq rs s).stackSize = s.stackSize ∧
    (pushSeq rs s).routeStack.length ≤ s.stackSize := by
  induction rs generalizing s with
  | nil => exact ⟨rfl, h0⟩
  | cons r rest ih =>
      rw [pushSeq_cons]
      have hsz := push_stackSize r s
      have hlen := push_length r s h1 h0
      have hrec := ih (push r s).1 (by rw [hsz]; exact h1) (by rw [hsz]; exact hlen)
      exact ⟨hrec.1.trans hsz, by rw [← hsz]; exact hrec.2⟩

/-- When the route is fresh and the router is idle with no handlers, `push`
short-circuits and runs its stack-mutating closure synchronously. -/
lemma push_shortcircuit (s : RouterS α H) (r : α) (hne : s.get ≠ some r)
    (hidle : s.currentTransition = none) (hnoh : s.confirmTransitions = []) :
    push r s = (applyEffect .pushEff (some r) s, .ok none) := by
  rw [push, if_neg hne, updateRoute, hidle, hnoh]
  simp

/-- `updateRoute` with the plain `update` closure never touches the route
stack, in any of its three branches. -/
lemma updateRoute_update_routeStack (r : Option α) (s : RouterS α H) :
    (updateRoute r .update s).1.routeStack = s.routeStack := by
  rw [updateRoute]
  by_cases h1 : s.currentTransition.isSome
  · rw [if_pos h1]
  · rw [if_neg h1]
    by_cases h2 : s.confirmTransitions.isEmpty
    · rw [if_pos h2]; simp [applyEffect, update, fire]
    · rw [if_neg h2]

/-- C1: REFUTED ON THE CODE (code bug).  With one registered confirm handler,
a `push` of a fresh route starts a voting round, but the handler's `confirm`
call faults - the source looks the handler up with the nonexistent array
method `indexof` - before it can shrink the outstanding set: nothing commits,
`applyEffect` never runs (the fire log stays empty) and the transition stays
pending, whereas the claim (and the protocol described by the source's own
comments) wants a commit with exactly one `applyEffect` run and no pending
transition left. -/
theorem C1_all_confirm_never_commits :
    (push 1 (registerConfirm 7 (mkRouter 32 : RouterS Nat Nat))).2 = .pending ∧
    confirmVote 7 (push 1 (registerConfirm 7 (mkRouter 32 : RouterS Nat Nat))).1 =
      ((push 1 (registerConfirm 7 (mkRouter 32 : RouterS Nat Nat))).1, .faulted) ∧
    (confirmVote 7 (push 1 (registerConfirm 7 (mkRouter 32 : RouterS Nat Nat))).1).1.fireLog
      = [] ∧
    (confirmVote 7 (push 1 (registerConfirm 7 (mkRouter 32 : RouterS Nat Nat))).1).1.currentTransition
      ≠ none := by
  decide

/-- C2: REFUTED ON THE CODE (code bug).  `complete` is a plain `function`
invoked bare, so its `this` is never the Router; a handler's `cancel` call
therefore faults in strict mode or returns against the global object, never
reaching the body that would clear the round and reject the promise.  With
one registered handler and a suspended `push 1` - even after a straggling
confirm - a cancel with reason "blocked" changes nothing: the state is
untouched (fire log still empty, so `applyEffect` never ran), the round is
still pending rather than the coordinator returning to idle, and the
operation's promise is never rejected with a cancellation error carrying the
reason - whereas the claim wants the transition to abort with exactly that
error and no pending transition left. -/
theorem C2_cancel_never_aborts :
    cancelVote (some blockedMsg)
      (confirmAll [3] (push 1 (registerConfirm 3 (mkRouter 32 : RouterS Nat Nat))).1) =
      ((confirmAll [3] (push 1 (registerConfirm 3 (mkRouter 32 : RouterS Nat Nat))).1),
        .faulted) ∧
    (cancelVote (some blockedMsg)
      (confirmAll [3] (push 1 (registerConfirm 3 (mkRouter 32 : RouterS Nat Nat))).1)).1.currentTransition
      ≠ none ∧
    (cancelVote (some blockedMsg)
      (confirmAll [3] (push 1 (registerConfirm 3 (mkRouter 32 : RouterS Nat Nat))).1)).2
      ≠ .rejected (.cancelled blockedMsg) ∧
    (cancelVote (some blockedMsg)
      (confirmAll [3] (push 1 (registerConfirm 3 (mkRouter 32 : RouterS Nat Nat))).1)).2
      ≠ .rejected (.cancelled cancelledDefaultMsg) ∧
    (cancelVote (some blockedMsg)
      (confirmAll [3] (push 1 (registerConfirm 3 (mkRouter 32 : RouterS Nat Nat))).1)).1.fireLog
      = [] := by
  decide

/-- C3: REFUTED AS STATED.  `sampleVoting` has a pending transition, yet a
`push` of the currently displayed route (1) does not fail with the
transition-in-progress error: the route-unchanged short-circuit runs before
the guard and the call resolves successfully, leaving the state untouched. -/
theorem C3_noop_push_succeeds_while_voting :
    sampleVoting.currentTransition ≠ none ∧
    push 1 sampleVoting = (sampleVoting, .ok none) ∧
    (push 1 sampleVoting).2 ≠ .error .transitionInProgress := by
  decide

/-- C3 (amended): while a transition is pending, any `pop`, and any `push` or
`set` whose route differs from the currently displayed one, fails with the
transition-in-progress error without starting a new voting round, and the
pending transition - its outstanding handler set and its target route - is
exactly as before; `push` and `set` of the currently displayed route instead
resolve successfully, also leaving the pending transition untouched. -/
theorem C3_pending_excludes_new_transitions (s : RouterS α H) (p : PendingT α H)
    (hp : s.currentTransition = some p) (r : α) :
    (pop s).2 = .error .transitionInProgress ∧
    (s.get ≠ some r → (push r s).2 = .error .transitionInProgress) ∧
    (s.get ≠ some r → (setRoute r s).2 = .error .transitionInProgress) ∧
    (s.get = some r → (push r s).2 = .ok none) ∧
    (s.get = some r → (setRoute r s).2 = .ok none) ∧
    (pop s).1.currentTransition = some p ∧
    (push r s).1.currentTransition = some p ∧
    (setRoute r s).1.currentTransition = some p := by
  refine ⟨?_, ?_, ?_, ?_, ?_, ?_, ?_, ?_⟩
  · simp [pop, updateRoute, hp]
  · intro hne; simp [push, hne, updateRoute, hp]
  · intro hne
    have hne2 : s.current ≠ some r := by simpa [RouterS.get] using hne
    simp [setRoute, RouterS.get, updateRoute, hp, hne2]
  · intro he; simp [push, he]
  · intro he
    have he2 : s.current = some r := by simpa [RouterS.get] using he
    simp [setRoute, RouterS.get, he2]
  · simp [pop, updateRoute, hp]
  · by_cases he : s.get = some r
    · simp [push, he, hp]
    · simp [push, he, updateRoute, hp]
  · by_cases he2 : s.current = some r
    · simp [setRoute, RouterS.get, he2, hp]
    · simp [setRoute, RouterS.get, updateRoute, hp, he2]

/-- C3 (amended) witness: on `sampleVoting`, `pop` and a fresh `push 9` both
fail with the transition-in-progress error. -/
theorem C3_pending_excludes_new_transitions_witness :
    (pop sampleVoting).2 = .error .transitionInProgress ∧
    (push 9 sampleVoting).2 = .error .transitionInProgress := by
  have h := C3_pending_excludes_new_transitions sampleVoting ⟨[7], some 2, .pushEff⟩
    (by decide) 9
  exact ⟨h.1, h.2.1 (by decide)⟩

/-- C4: REFUTED AS STATED.  On a fresh router (empty stack, no pending
transition, no handlers) `pop` does perform a transition: it runs
`updateRoute` on the undefined popped value, which short-circuits and fires
one notification, carrying undefined, on the effect channel - where the claim
wants no transition and no notification.  The empty result (undefined) is
returned as claimed. -/
theorem C4_pop_empty_fires :
    pop (mkRouter 32 : RouterS Nat Nat) =
      ({ (mkRouter 32 : RouterS Nat Nat) with fireLog := [none] }, .ok none) ∧
    (pop (mkRouter 32 : RouterS Nat Nat)).1.fireLog ≠ [] := by
  decide

/-- C4 (amended): with no pending transition and no registered handlers,
`pop` on an empty stack returns the undefined empty result - but it still
performs a (short-circuited) transition for the undefined route, firing
exactly one notification that carries undefined and setting the current route
to undefined; the stack stays empty. -/
theorem C4_pop_empty_still_transitions (s : RouterS α H)
    (hstk : s.routeStack = []) (hidle : s.currentTransition = none)
    (hnoh : s.confirmTransitions = []) :
    pop s =
      ({ s with
          routeStack := []
          current := none
          fireLog := s.fireLog ++ [none] }, .ok none) := by
  simp [pop, hstk, updateRoute, hidle, hnoh, applyEffect, update, fire]

/-- C4 (amended) witness: the fresh router. -/
theorem C4_pop_empty_still_transitions_witness :
    pop (mkRouter 32 : RouterS Nat Nat) =
      ({ (mkRouter 32 : RouterS Nat Nat) with
          routeStack := []
          current := none
          fireLog := (mkRouter 32 : RouterS Nat Nat).fireLog ++ [none] }, .ok none) :=
  C4_pop_empty_still_transitions (mkRouter 32) rfl rfl rfl

/-- C5: starting from any state whose stack respects a positive bound (the
constructor default is 32; the source's eviction loop would not terminate for
a zero bound), every sequence of `push` calls keeps `routeStack.length ≤
stackSize`; moreover, whenever a push would exceed the bound (the stack
already holds at least `stackSize` entries), the eviction loop drops entries
from the front of the stack - the oldest first, FIFO - leaving exactly the
newest `stackSize - 1` before the new entry is appended. -/
theorem C5_stack_bounded (s0 : RouterS α H) (h1 : 1 ≤ s0.stackSize)
    (h0 : s0.routeStack.length ≤ s0.stackSize) (rs : List α) :
    (pushSeq rs s0).routeStack.length ≤ s0.stackSize ∧
    ∀ l : List (Option α), s0.stackSize ≤ l.length →
      shiftWhileFull s0.stackSize l = l.drop (l.length + 1 - s0.stackSize) := by
  exact ⟨(pushSeq_inv rs s0 h1 h0).2,
    fun l _ => shiftWhileFull_eq_drop s0.stackSize h1 l⟩

/-- C5 witness: three pushes on a fresh router with bound 2. -/
theorem C5_stack_bounded_witness :
    (pushSeq [1, 2, 3] (mkRouter 2 : RouterS Nat Nat)).routeStack.length ≤ 2 :=
  (C5_stack_bounded (mkRouter 2) (by decide) (by decide) [1, 2, 3]).1

/-- C6: once no transition is pending any more (the round resolved), any
further `confirm` or `cancel` call is a no-op: the pending-transition check at
the top of `complete` returns before anything is touched, so the whole state -
stack, current route, fire log, registration list, and the absent pending
transition - is unchanged, for any straggling handler, for repeated confirms,
and for a confirm followed by a cancel alike. -/
theorem C6_late_votes_are_noops (s : RouterS α H)
    (hres : s.currentTransition = none) (h : H) (reason : Option String) :
    confirmVote h s = (s, .ignored) ∧ cancelVote reason s = (s, .ignored) := by
  constructor <;> simp [confirmVote, cancelVote, hres]

/-- C6 witness: votes arriving after a transition has resolved (here the
short-circuit commit of `push 1` on a handlerless fresh router) are no-ops. -/
theorem C6_late_votes_are_noops_witness :
    confirmVote 7 (push 1 (mkRouter 32 : RouterS Nat Nat)).1 =
      ((push 1 (mkRouter 32 : RouterS Nat Nat)).1, .ignored) ∧
    cancelVote none (push 1 (mkRouter 32 : RouterS Nat Nat)).1 =
      ((push 1 (mkRouter 32 : RouterS Nat Nat)).1, .ignored) :=
  C6_late_votes_are_noops (push 1 (mkRouter 32 : RouterS Nat Nat)).1 (by decide) 7 none

/-- C7: REFUTED AS STATED.  With stackSize 2 and no handlers, the sequence
push(1), push(2), push(3) on a fresh router leaves the stack
[some 1, some 2], not [some 2] as the claim has it - `push` saves the
pre-change current route, so the pushed entries were undefined, 1, 2, and the
undefined one was evicted.  The current route is 3, as claimed. -/
theorem C7_stack_is_not_B :
    (pushSeq [1, 2, 3] (mkRouter 2 : RouterS Nat Nat)).routeStack ≠ [some 2] ∧
    (pushSeq [1, 2, 3] (mkRouter 2 : RouterS Nat Nat)).routeStack = [some 1, some 2] ∧
    (pushSeq [1, 2, 3] (mkRouter 2 : RouterS Nat Nat)).current = some 3 := by
  decide

/-- C7 (amended): with stackSize 2, no handlers, and routes A ≠ B, B ≠ C, the
sequence push(A), push(B), push(C) on a fresh router leaves the stack
[some A, some B] - each push records the pre-change route, so the recorded
entries were undefined, A, B, and the undefined one was evicted first
(FIFO) - the current route is C, and one notification was fired per push. -/
theorem C7_push_push_push (A B C : Nat) (hab : A ≠ B) (hbc : B ≠ C) :
    pushSeq [A, B, C] (mkRouter 2 : RouterS Nat Nat) =
      { current := some C, fireLog := [some A, some B, some C],
        routeStack := [some A, some B], stackSize := 2,
        confirmTransitions := [], currentTransition := none } := by
  show (push C (push B (push A (mkRouter 2 : RouterS Nat Nat)).1).1).1 = _
  have e1 : (push A (mkRouter 2 : RouterS Nat Nat)).1 =
      ({ current := some A, fireLog := [some A], routeStack := [none],
         stackSize := 2, confirmTransitions := [],
         currentTransition := none } : RouterS Nat Nat) := rfl
  rw [e1]
  have e2 : (push B ({ current := some A, fireLog := [some A], routeStack := [none],
                       stackSize := 2, confirmTransitions := [],
                       currentTransition := none } : RouterS Nat Nat)).1 =
      ({ current := some B, fireLog := [some A, some B],
         routeStack := [none, some A], stackSize := 2, confirmTransitions := [],
         currentTransition := none } : RouterS Nat Nat) :=
    congrArg Prod.fst (push_shortcircuit
      ({ current := some A, fireLog := [some A], routeStack := [none],
         stackSize := 2, confirmTransitions := [],
         currentTransition := none } : RouterS Nat Nat) B
      (fun hx => hab (Option.some.inj hx)) rfl rfl)
  rw [e2]
  have e3 : (push C ({ current := some B, fireLog := [some A, some B],
                       routeStack := [none, some A], stackSize := 2,
                       confirmTransitions := [],
                       currentTransition := none } : RouterS Nat Nat)).1 =
      ({ current := some C, fireLog := [some A, some B, some C],
         routeStack := [some A, some B], stackSize := 2, confirmTransitions := [],
         currentTransition := none } : RouterS Nat Nat) :=
    congrArg Prod.fst (push_shortcircuit
      ({ current := some B, fireLog := [some A, some B],
         routeStack := [none, some A], stackSize := 2, confirmTransitions := [],
         currentTransition := none } : RouterS Nat Nat) C
      (fun hx => hbc (Option.some.inj hx)) rfl rfl)
  rw [e3]

/-- C7 (amended) witness: routes 1, 2, 3. -/
theorem C7_push_push_push_witness :
    pushSeq [1, 2, 3] (mkRouter 2 : RouterS Nat Nat) =
      { current := some 3, fireLog := [some 1, some 2, some 3],
        routeStack := [some 1, some 2], stackSize := 2,
        confirmTransitions := [], currentTransition := none } :=
  C7_push_push_push 1 2 3 (by decide) (by decide)

/-- C8: `setRoute` clears history up front.  If the target route is the
currently displayed one, the call only clears the stack and resolves, firing
nothing and touching nothing else (this holds whether or not a transition is
pending).  Otherwise the stack is already empty the moment the call returns -
whether it threw on a pending round, fired through the no-handler
short-circuit, or suspended on a fresh voting round - and a later `cancel`
aborting that round still leaves the history cleared. -/
theorem C8_set_clears_up_front (s : RouterS α H) (r : α) (reason : Option String) :
    (s.get = some r → setRoute r s = ({ s with routeStack := [] }, .ok none)) ∧
    (s.get ≠ some r →
      (setRoute r s).1.routeStack = [] ∧
      (cancelVote reason (setRoute r s).1).1.routeStack = []) := by
  constructor
  · intro he
    have he2 : s.current = some r := by simpa [RouterS.get] using he
    simp [setRoute, RouterS.get, he2]
  · intro hne
    have hne2 : s.current ≠ some r := by simpa [RouterS.get] using hne
    have hstk : (setRoute r s).1.routeStack = [] := by
      rw [setRoute]
      rw [if_neg (by simpa [RouterS.get] using hne2)]
      exact updateRoute_update_routeStack _ _
    exact ⟨hstk, by rw [cancelVote_routeStack, hstk]⟩

/-- C8 witness: with route 1 displayed, `setRoute 1` only clears the stack,
and `setRoute 2` leaves the stack cleared. -/
theorem C8_set_clears_up_front_witness :
    setRoute 1 (push 1 (mkRouter 32 : RouterS Nat Nat)).1 =
      ({ (push 1 (mkRouter 32 : RouterS Nat Nat)).1 with routeStack := [] }, .ok none) ∧
    (setRoute 2 (push 1 (mkRouter 32 : RouterS Nat Nat)).1).1.routeStack = [] :=
  ⟨(C8_set_clears_up_front (push 1 (mkRouter 32 : RouterS Nat Nat)).1 1 none).1 rfl,
   ((C8_set_clears_up_front (push 1 (mkRouter 32 : RouterS Nat Nat)).1 2 none).2
     (by decide)).1⟩

/-- C9: REFUTED ON THE CODE (code bug).  `currentTransition` is assigned the
registration array itself, and the confirm branch of `complete` would
`splice` the confirming handler out of it - through that alias, out of the
registration list - but the lookup right before the splice calls the
nonexistent array method `indexof` and faults, so a handler's confirm leaves
the registration list (and everything else) untouched: after both handlers of
the round call confirm, the list still holds both, no commit happened (the
fire log is empty), and the round is still pending - whereas the claim (and
the code as written, modulo the misspelling) has each confirm shrink the
registration list, leaving it empty after a unanimous commit. -/
theorem C9_confirm_never_unregisters :
    (setRoute 9 (registerConfirm 5 (registerConfirm 4 (mkRouter 32 : RouterS Nat Nat)))).2
      = .pending ∧
    (confirmAll [4, 5]
      (setRoute 9 (registerConfirm 5 (registerConfirm 4 (mkRouter 32 : RouterS Nat Nat)))).1).confirmTransitions
      = [4, 5] ∧
    (confirmAll [4, 5]
      (setRoute 9 (registerConfirm 5 (registerConfirm 4 (mkRouter 32 : RouterS Nat Nat)))).1).currentTransition
      ≠ none ∧
    (confirmAll [4, 5]
      (setRoute 9 (registerConfirm 5 (registerConfirm 4 (mkRouter 32 : RouterS Nat Nat)))).1).fireLog
      = [] := by
  decide

/-- C10: a `push` / `pop` / `setRoute` call that fails with the
transition-in-progress error is not atomic on the stack: `pop` has already
removed (and now discards) the most recent stack entry when `updateRoute`
throws, and `setRoute` has already cleared the whole stack; only `push` (of a
route that differs from the displayed one, or it would not fail at all)
reaches the guard before touching anything, leaving the state exactly as it
was. -/
theorem C10_failed_calls_not_atomic (s : RouterS α H) (p : PendingT α H)
    (hp : s.currentTransition = some p) (r : α) :
    pop s = ({ s with routeStack := s.routeStack.dropLast },
      .error .transitionInProgress) ∧
    (s.get ≠ some r →
      setRoute r s = ({ s with routeStack := [] }, .error .transitionInProgress)) ∧
    (s.get ≠ some r → push r s = (s, .error .transitionInProgress)) := by
  refine ⟨?_, ?_, ?_⟩
  · simp [pop, updateRoute, hp]
  · intro hne
    have hne2 : s.current ≠ some r := by simpa [RouterS.get] using hne
    simp [setRoute, RouterS.get, hne2, updateRoute, hp]
  · intro hne
    simp [push, hne, updateRoute, hp]

/-- C10 witness: on `sampleVoting` (stack `[none]`, route 1 displayed, a
round pending), `pop` discards the stack entry and throws, while a fresh
`push 9` throws leaving the state untouched. -/
theorem C10_failed_calls_not_atomic_witness :
    pop sampleVoting =
      ({ sampleVoting with routeStack := sampleVoting.routeStack.dropLast },
        .error .transitionInProgress) ∧
    push 9 sampleVoting = (sampleVoting, .error .transitionInProgress) :=
  ⟨(C10_failed_calls_not_atomic sampleVoting ⟨[7], some 2, .pushEff⟩ (by decide) 9).1,
   (C10_failed_calls_not_atomic sampleVoting ⟨[7], some 2, .pushEff⟩ (by decide) 9).2.2
     (by decide)⟩
